import Mathlib

/-!
# Verification of the city-helper conversational pipeline

A shallow embedding, in Lean 4, of the core of the city-helper backend:
the data schemas (`app/schemas/agent.py`), the route optimizer and the
chat-pipeline orchestrator (`app/services/chat_service.py`), the map-data
assembly (`app/services/maps_service.py`) and the city matcher / place
enrichment (`app/services/places_service.py`).

Conventions of the embedding:
* Python numeric values flowing through these functions are modelled as
  `Nat` / `Int` / `ℚ` (Python ints are unbounded; the IEEE doubles holding
  coordinates and ratings are modelled as rationals — none of the verified
  properties depend on rounding).
* The haversine distance `calculate_distance` is a floating-point
  transcendental computation; the functions that consume it (the greedy
  optimizer, and through it the pipeline) are therefore parameterized by an
  arbitrary distance function `d : EnrichedPlace → EnrichedPlace → ℚ`.
  Every theorem proved about them holds for every `d`, hence in particular
  for the haversine distance of the source.
* The three LLM capabilities (`classify_query`, `route_request`,
  `suggest_places`) and the Google place search (`enrich_places`) perform
  network I/O; they are modelled as an `Oracle` of explicit results, with
  a `CallEvent` trace recording every capability invocation together with
  its arguments.  A Python exception raised by a step is an
  `Except.error`.
-/

namespace CityHelper

/-- `QueryClassification` (app/schemas/agent.py). -/
structure QueryClassification where
  is_route_request : Bool
  location : String
  place_type : String
  count : Nat
  theme : Option String
  travel_mode : String
deriving DecidableEq, Repr

/-- `PlaceSuggestion` (app/schemas/agent.py). -/
structure PlaceSuggestion where
  name : String
  short_description : String
  why_recommended : String
deriving DecidableEq, Repr

/-- `PlaceSuggestions` (app/schemas/agent.py). -/
structure PlaceSuggestions where
  places : List PlaceSuggestion
  route_description : String
  estimated_duration : String
deriving DecidableEq, Repr

/-- `PlaceCoordinates` (app/schemas/agent.py); lat/lng modelled as ℚ. -/
structure PlaceCoordinates where
  lat : ℚ
  lng : ℚ
deriving DecidableEq, Repr

/-- `EnrichedPlace` (app/schemas/agent.py). -/
structure EnrichedPlace where
  name : String
  description : String
  address : String
  coordinates : PlaceCoordinates
  place_id : String
  rating : Option ℚ
  user_ratings_total : Option Nat
  google_maps_link : String
  photo_url : Option String
deriving DecidableEq, Repr

/-- `MapPoint` (app/schemas/agent.py). -/
structure MapPoint where
  name : String
  googleMapsLink : String
  address : Option String
  rating : Option ℚ
  userRatingsTotal : Option Nat
  photoUrl : Option String
  coordinates : Option PlaceCoordinates
deriving DecidableEq, Repr

/-- `MapSegment` (app/schemas/agent.py); `from_point` is serialized as
"from", and `to_point` is the source's field `to` (a Lean keyword). -/
structure MapSegment where
  from_point : String
  to_point : String
  mapUrl : String
deriving DecidableEq, Repr

/-- `MapData` (app/schemas/agent.py). -/
structure MapData where
  title : String
  description : String
  duration : String
  points : List MapPoint
  segments : List MapSegment
  fullRouteMapUrl : String
  fullRouteLink : String
deriving DecidableEq, Repr

/-- `AgentRoutingDecision` (app/schemas/agent.py). -/
structure AgentRoutingDecision where
  is_new_request : Bool
  operation_type : String
  use_previous_context : Bool
  reasoning : String
  location_changed : Bool
  place_type_changed : Bool
  count_adjustment : Option Int
deriving DecidableEq, Repr

/-! ## Route optimizer (`optimize_route_greedy`, chat_service.py lines 60-92)

The Python loop is
```
optimized = [places[0]]; remaining = places[1:]
while remaining:
    current = optimized[-1]
    nearest = min(remaining, key=lambda p: calculate_distance(current, p))
    optimized.append(nearest)
    remaining.remove(nearest)
```
`min` returns the first element attaining the minimal key, and
`list.remove` removes exactly that occurrence (CPython compares with an
identity shortcut, and any earlier value-equal element would have equal
key and thus itself be the minimum), so the loop is removal at the index
of the first minimum.  We model it that way: `minByPair` returns the index
and value of the first minimum, and the loop removes with `eraseIdx`. -/

/-- Index (within `x :: ys`) and value of the first element with minimal key,
mirroring Python `min(..., key=f)` tie-breaking (earliest wins). -/
def minByPair (f : α → ℚ) (x : α) : List α → Nat × α
  | [] => (0, x)
  | y :: ys =>
    let p := minByPair f y ys
    if f x ≤ f p.2 then (0, x) else (p.1 + 1, p.2)

/-- The `while remaining` loop of `optimize_route_greedy`.  The fuel argument
is only a structural-termination device; it is always called with
`fuel = remaining.length`, and each iteration consumes one element. -/
def greedyNNFuel (d : α → α → ℚ) : Nat → α → List α → List α
  | 0, _, _ => []
  | _ + 1, _, [] => []
  | fuel + 1, current, x :: xs =>
    let p := minByPair (d current) x xs
    p.2 :: greedyNNFuel d fuel p.2 ((x :: xs).eraseIdx p.1)

/-- `optimize_route_greedy` (chat_service.py lines 60-92), parameterized by
the distance function (the source fixes `d = calculate_distance`, the
haversine formula). -/
def optimize_route_greedy (d : α → α → ℚ) : List α → List α
  | [] => []
  | p0 :: rest =>
    if (p0 :: rest).length ≤ 2 then p0 :: rest
    else p0 :: greedyNNFuel d rest.length p0 rest

theorem minByPair_fst_le (f : α → ℚ) (x : α) (ys : List α) :
    (minByPair f x ys).1 ≤ ys.length := by
  induction ys generalizing x with
  | nil => simp [minByPair]
  | cons y ys ih =>
    simp only [minByPair]
    split
    · simp
    · simpa using Nat.succ_le_succ (ih y)

theorem minByPair_perm (f : α → ℚ) (x : α) (ys : List α) :
    (x :: ys).Perm
      ((minByPair f x ys).2 :: (x :: ys).eraseIdx (minByPair f x ys).1) := by
  induction ys generalizing x with
  | nil => simp [minByPair]
  | cons y ys ih =>
    simp only [minByPair]
    split
    · simp
    · have h := ih y
      refine List.Perm.trans (List.Perm.cons x h) ?_
      refine List.Perm.trans (List.Perm.swap _ _ _) ?_
      simp [List.eraseIdx_cons_succ]

theorem eraseIdx_length_of_lt (l : List α) (i : Nat) (h : i < l.length) :
    (l.eraseIdx i).length + 1 = l.length := by
  induction l generalizing i with
  | nil => simp at h
  | cons a l ih =>
    cases i with
    | zero => simp [List.eraseIdx]
    | succ i =>
      simp only [List.eraseIdx, List.length_cons]
      have := ih i (by simpa using Nat.lt_of_succ_lt_succ h)
      omega

theorem greedyNNFuel_perm (d : α → α → ℚ) :
    ∀ (fuel : Nat) (l : List α) (current : α), l.length ≤ fuel →
      (greedyNNFuel d fuel current l).Perm l := by
  intro fuel
  induction fuel with
  | zero =>
    intro l current h
    have : l = [] := List.length_eq_zero.mp (Nat.le_zero.mp h)
    subst this
    simp [greedyNNFuel]
  | succ fuel ih =>
    intro l current h
    match l with
    | [] => simp [greedyNNFuel]
    | x :: xs =>
      simp only [greedyNNFuel]
      have hidx : (minByPair (d current) x xs).1 < (x :: xs).length := by
        have := minByPair_fst_le (d current) x xs
        simp only [List.length_cons]
        omega
      have hlen : ((x :: xs).eraseIdx (minByPair (d current) x xs).1).length ≤ fuel := by
        have := eraseIdx_length_of_lt (x :: xs) _ hidx
        simp only [List.length_cons] at this h ⊢
        omega
      have hrec := ih ((x :: xs).eraseIdx (minByPair (d current) x xs).1)
        (minByPair (d current) x xs).2 hlen
      exact ((hrec.cons _).trans (minByPair_perm (d current) x xs).symm)

/-- C8, proved below, is about `optimize_route_greedy`; this is its core. -/
theorem optimize_route_greedy_perm (d : α → α → ℚ) (places : List α) :
    (optimize_route_greedy d places).Perm places := by
  match places with
  | [] => simp [optimize_route_greedy]
  | p0 :: rest =>
    simp only [optimize_route_greedy]
    split
    · exact List.Perm.refl _
    · exact (greedyNNFuel_perm d rest.length rest p0 le_rfl).cons p0

theorem optimize_route_greedy_short (d : α → α → ℚ) (places : List α)
    (h : places.length ≤ 2) : optimize_route_greedy d places = places := by
  match places with
  | [] => simp [optimize_route_greedy]
  | p0 :: rest =>
    simp only [optimize_route_greedy]
    rw [if_pos h]

theorem optimize_route_greedy_head (d : α → α → ℚ) (places : List α) :
    (optimize_route_greedy d places).head? = places.head? := by
  match places with
  | [] => simp [optimize_route_greedy]
  | p0 :: rest =>
    simp only [optimize_route_greedy]
    split <;> simp

/-- C8: `optimize_route_greedy` returns a permutation of its input (same
length, same multiset of elements), leaves every list of length ≤ 2
unchanged, and keeps the first element as the route start.  Stated for
every distance function `d`, hence in particular for the source's
haversine `calculate_distance`. -/
theorem C8_optimizer_permutation (d : α → α → ℚ) (places : List α) :
    (optimize_route_greedy d places).Perm places ∧
      (places.length ≤ 2 → optimize_route_greedy d places = places) ∧
      (optimize_route_greedy d places).head? = places.head? :=
  ⟨optimize_route_greedy_perm d places,
   optimize_route_greedy_short d places,
   optimize_route_greedy_head d places⟩

/-- Concrete places used by witnesses. -/
def wPlace (n : String) (la lb : ℚ) : EnrichedPlace :=
  { name := n, description := "d", address := "a",
    coordinates := { lat := la, lng := lb }, place_id := "id",
    rating := none, user_ratings_total := none,
    google_maps_link := "", photo_url := none }

/-- A concrete distance function for witnesses (squared Euclidean on the
rational coordinates). -/
def dSq (p q : EnrichedPlace) : ℚ :=
  (p.coordinates.lat - q.coordinates.lat) ^ 2 +
    (p.coordinates.lng - q.coordinates.lng) ^ 2

/-- Witness for C8 at concrete inputs: a 2-element list is unchanged and a
4-element list is permuted onto the same multiset. -/
theorem C8_optimizer_permutation_witness :
    optimize_route_greedy dSq [wPlace "A" 0 0, wPlace "B" 1 1] =
        [wPlace "A" 0 0, wPlace "B" 1 1] ∧
      (optimize_route_greedy dSq
          [wPlace "A" 0 0, wPlace "B" 5 5, wPlace "C" 1 1, wPlace "D" 2 2]).Perm
        [wPlace "A" 0 0, wPlace "B" 5 5, wPlace "C" 1 1, wPlace "D" 2 2] :=
  ⟨(C8_optimizer_permutation dSq [wPlace "A" 0 0, wPlace "B" 1 1]).2.1 (by decide),
   (C8_optimizer_permutation dSq
      [wPlace "A" 0 0, wPlace "B" 5 5, wPlace "C" 1 1, wPlace "D" 2 2]).1⟩

/-! ## City matcher (`places_service.py` lines 31-130)

String helpers model the Python primitives used by `_normalize_city_name`
and `_is_city_in_address`:
* `toLowerPy` is `str.lower` restricted to ASCII, the Latin-1 letter block
  and Cyrillic (identity on other characters);
* `nfdChar` is `unicodedata.normalize("NFD", ·)` restricted to the Latin-1
  letter block (identity elsewhere), and `combiningMark` is the
  combining-diacritical-marks block of category Mn;
* `pyStrip`, `pySplit`, `charsHasSub` model `str.strip()`, `str.split()`
  and the `in` substring operator. -/

/-- Python whitespace as used by `str.split()` / `\s` (ASCII part). -/
def isSpacePy (c : Char) : Bool :=
  c == ' ' || c == '\t' || c == '\n' || c == Char.ofNat 0x0D ||
    c == Char.ofNat 0x0B || c == Char.ofNat 0x0C

/-- `str.lower` on one character (ASCII, Latin-1 letters, Cyrillic). -/
def charLowerPy (c : Char) : Char :=
  if 'A' ≤ c ∧ c ≤ 'Z' then Char.ofNat (c.toNat + 32)
  else if 0xC0 ≤ c.toNat ∧ c.toNat ≤ 0xDE ∧ c.toNat ≠ 0xD7 then Char.ofNat (c.toNat + 32)
  else if 0x410 ≤ c.toNat ∧ c.toNat ≤ 0x42F then Char.ofNat (c.toNat + 32)
  else if c.toNat = 0x401 then Char.ofNat 0x451
  else c

/-- `str.lower`. -/
def toLowerPy (s : String) : String := String.mk (s.data.map charLowerPy)

/-- `str.strip()` (both ends, Python whitespace). -/
def pyStrip (s : String) : String :=
  String.mk (((s.data.dropWhile isSpacePy).reverse.dropWhile isSpacePy).reverse)

/-- Canonical (NFD) decompositions of the precomposed Latin-1 letters:
(precomposed, base, combining-mark code point). -/
def nfdTable : List (Char × Char × Nat) :=
  [('À', 'A', 0x300), ('Á', 'A', 0x301), ('Â', 'A', 0x302), ('Ã', 'A', 0x303),
   ('Ä', 'A', 0x308), ('Å', 'A', 0x30A), ('Ç', 'C', 0x327),
   ('È', 'E', 0x300), ('É', 'E', 0x301), ('Ê', 'E', 0x302), ('Ë', 'E', 0x308),
   ('Ì', 'I', 0x300), ('Í', 'I', 0x301), ('Î', 'I', 0x302), ('Ï', 'I', 0x308),
   ('Ñ', 'N', 0x303),
   ('Ò', 'O', 0x300), ('Ó', 'O', 0x301), ('Ô', 'O', 0x302), ('Õ', 'O', 0x303),
   ('Ö', 'O', 0x308),
   ('Ù', 'U', 0x300), ('Ú', 'U', 0x301), ('Û', 'U', 0x302), ('Ü', 'U', 0x308),
   ('Ý', 'Y', 0x301),
   ('à', 'a', 0x300), ('á', 'a', 0x301), ('â', 'a', 0x302), ('ã', 'a', 0x303),
   ('ä', 'a', 0x308), ('å', 'a', 0x30A), ('ç', 'c', 0x327),
   ('è', 'e', 0x300), ('é', 'e', 0x301), ('ê', 'e', 0x302), ('ë', 'e', 0x308),
   ('ì', 'i', 0x300), ('í', 'i', 0x301), ('î', 'i', 0x302), ('ï', 'i', 0x308),
   ('ñ', 'n', 0x303),
   ('ò', 'o', 0x300), ('ó', 'o', 0x301), ('ô', 'o', 0x302), ('õ', 'o', 0x303),
   ('ö', 'o', 0x308),
   ('ù', 'u', 0x300), ('ú', 'u', 0x301), ('û', 'u', 0x302), ('ü', 'u', 0x308),
   ('ý', 'y', 0x301), ('ÿ', 'y', 0x308)]

/-- `unicodedata.normalize("NFD", ·)` on one character (Latin-1 letters;
identity elsewhere — `ß`, `Æ`, `Ø`, … have no canonical decomposition). -/
def nfdChar (c : Char) : List Char :=
  match nfdTable.find? (fun e => e.1 = c) with
  | some e => [e.2.1, Char.ofNat e.2.2]
  | none => [c]

/-- Category-Mn test restricted to the combining-diacritical-marks block
(the only marks `nfdChar` produces). -/
def combiningMark (c : Char) : Bool := decide (0x300 ≤ c.toNat ∧ c.toNat ≤ 0x36F)

/-- `PlacesService._normalize_city_name` (places_service.py lines 31-43):
NFD-decompose, drop combining marks, lowercase, strip. -/
def normalize_city_name (city : String) : String :=
  let decomposed := city.data.foldr (fun c acc => nfdChar c ++ acc) []
  let stripped := decomposed.filter (fun c => !(combiningMark c))
  pyStrip (toLowerPy (String.mk stripped))

/-- Does `hay` start with `needle`? (char-list prefix test). -/
def charsStartWith : List Char → List Char → Bool
  | _, [] => true
  | [], _ :: _ => false
  | h :: hs, n :: ns => h == n && charsStartWith hs ns

/-- Python's substring operator `needle in hay`. -/
def charsHasSub (needle : List Char) : List Char → Bool
  | [] => needle.isEmpty
  | c :: t => charsStartWith (c :: t) needle || charsHasSub needle t

/-- Python's substring operator on strings. -/
def hasSubStr (hay needle : String) : Bool := charsHasSub needle.data hay.data

/-- `address_lower.replace(",", " ")`. -/
def replaceCommas (s : String) : String :=
  String.mk (s.data.map fun c => if c = ',' then ' ' else c)

/-- Accumulator worker for `str.split()`. -/
def splitWsAux : List Char → List Char → List (List Char)
  | [], acc => if acc.isEmpty then [] else [acc.reverse]
  | c :: cs, acc =>
    if isSpacePy c then
      if acc.isEmpty then splitWsAux cs [] else acc.reverse :: splitWsAux cs []
    else splitWsAux cs (c :: acc)

/-- `str.split()` — split on whitespace runs, no empty tokens. -/
def pySplit (s : String) : List String := (splitWsAux s.data []).map String.mk

/-- `token.strip(".,;-")`. -/
def stripPunct (t : List Char) : List Char :=
  let p := fun c => c == '.' || c == ',' || c == ';' || c == '-'
  ((t.dropWhile p).reverse.dropWhile p).reverse

/-- Inner loop of `_levenshtein_distance`: one DP row extension.  At column
`j` the cell is `min(previous_row[j+1]+1, current_row[j]+1,
previous_row[j] + (c1 != c2))`; `left` is the last value appended to the
current row. -/
def levInner (c1 : Char) : List Char → List Nat → Nat → List Nat
  | [], _, _ => []
  | c2 :: cs, p0 :: p1 :: ps, left =>
    let cur := min (p1 + 1) (min (left + 1) (p0 + (if c1 = c2 then 0 else 1)))
    cur :: levInner c1 cs (p1 :: ps) cur
  | _ :: _, _, _ => []

/-- Outer loop of `_levenshtein_distance`: fold the rows over `s1`,
`i` being the `enumerate` index. -/
def levRows (s2 : List Char) : List Char → Nat → List Nat → List Nat
  | [], _, prev => prev
  | c1 :: cs, i, prev => levRows s2 cs (i + 1) ((i + 1) :: levInner c1 s2 prev (i + 1))

/-- The DP core of `_levenshtein_distance` (s1 the longer string): final
row's last entry, starting from `previous_row = range(len(s2) + 1)`. -/
def levCore (s1 s2 : List Char) : Nat :=
  ((levRows s2 s1 0 (List.range (s2.length + 1))).getLast?).getD 0

/-- `PlacesService._levenshtein_distance` (places_service.py lines 108-130). -/
def levenshtein_distance (s1 s2 : List Char) : Nat :=
  if s1.length < s2.length then
    if s1.length = 0 then s2.length else levCore s2 s1
  else if s2.length = 0 then s1.length
  else levCore s1 s2

/-- `PlacesService._is_city_in_address` (places_service.py lines 45-106):
the four matching strategies, short-circuiting on first success. -/
def is_city_in_address (requested_city address : String) : Bool :=
  let address_lower := toLowerPy address
  let city_lower := pyStrip (toLowerPy requested_city)
  if hasSubStr address_lower city_lower then true
  else
    let city_normalized := normalize_city_name requested_city
    let address_normalized := normalize_city_name address
    if hasSubStr address_normalized city_normalized then true
    else
      let address_tokens := pySplit (replaceCommas address_lower)
      address_tokens.any fun token =>
        let token_clean := String.mk (stripPunct token.data)
        if token_clean = "" ∨ token_clean.length < 3 then false
        else if token_clean = city_lower then true
        else
          let token_normalized := normalize_city_name token_clean
          if token_normalized = city_normalized then true
          else if 4 ≤ city_normalized.length then
            levenshtein_distance city_normalized.data token_normalized.data ≤
              max 3 (city_normalized.length / 3)
          else false

/-- C9: the city matcher accepts "München" for Munich (diacritic case,
matched in the token pass after normalization), accepts "Moskva" for
Moscow (edit-distance case, Levenshtein distance ≤ 3 on the normalized
token), and rejects a Stuttgart address for Munich. -/
theorem C9_city_matcher :
    is_city_in_address "Munich" "Marienplatz, München, Germany" = true ∧
      is_city_in_address "Moscow" "ul. Tverskaya, Moskva" = true ∧
      levenshtein_distance "moscow".data "moskva".data ≤ 3 ∧
      is_city_in_address "Munich" "Hauptstraße, Stuttgart, Germany" = false := by
  decide

/-! ## Place-name extraction (`extract_places_from_response`,
chat_service.py lines 17-38)

`re.findall(r"\d+\.\s+\*\*([^*]+)\*\*", text)`: a numbered-list item is
one or more digits, a dot, one or more whitespace characters, `**`, a
non-empty run of non-`*` characters (the captured name), `**`.  The
pattern is backtracking-free (each `+` run is bounded by a character that
cannot extend it), so a greedy left-to-right scan implements `findall`
exactly: try a match at each position, and on success resume after the
matched text. -/

/-- Consume one-or-more characters satisfying `p` (greedy), returning the
rest; fails when the first character does not satisfy `p`. -/
def matchPlus (p : Char → Bool) : List Char → Option (List Char)
  | c :: cs => if p c then some (cs.dropWhile p) else none
  | [] => none

/-- Consume one-or-more characters satisfying `p` (greedy), returning the
consumed run and the rest. -/
def capturePlus (p : Char → Bool) : List Char → Option (List Char × List Char)
  | c :: cs => if p c then some (c :: cs.takeWhile p, cs.dropWhile p) else none
  | [] => none

/-- Consume one expected character. -/
def expectChar (c : Char) : List Char → Option (List Char)
  | d :: ds => if d = c then some ds else none
  | [] => none

/-- Try the numbered-list-item pattern at the current position, returning
the captured place name and the rest of the text. -/
def tryMatchItem (l : List Char) : Option (String × List Char) := do
  let r1 ← matchPlus Char.isDigit l
  let r2 ← expectChar '.' r1
  let r3 ← matchPlus isSpacePy r2
  let r4 ← expectChar '*' r3
  let r5 ← expectChar '*' r4
  let (cap, r6) ← capturePlus (fun c => c != '*') r5
  let r7 ← expectChar '*' r6
  let r8 ← expectChar '*' r7
  some (String.mk cap, r8)

/-- `re.findall` scan.  The fuel is a structural-termination device; every
step consumes at least one character, so `fuel = text.length + 1` computes
the full scan. -/
def findAllItems : Nat → List Char → List String
  | 0, _ => []
  | _ + 1, [] => []
  | fuel + 1, c :: cs =>
    match tryMatchItem (c :: cs) with
    | some (cap, rest) => cap :: findAllItems fuel rest
    | none => findAllItems fuel cs

/-- `extract_places_from_response` (chat_service.py lines 17-38): `None`
for an empty text, the matched names when the numbered-list pattern
occurs, `None` otherwise. -/
def extract_places_from_response (response_text : String) : Option (List String) :=
  if response_text = "" then none
  else
    let found := findAllItems (response_text.length + 1) response_text.data
    if found.isEmpty then none else some found

/-! ## Agent routing (`_apply_agent_routing`, chat_service.py lines 168-231) -/

/-- Python truthiness of `routing.count_adjustment : int | None`
(`None` and `0` are falsy). -/
def truthyAdj : Option Int → Bool
  | none => false
  | some a => a != 0

/-- `abs(routing.count_adjustment)` with `None` as 0. -/
def adjAbs : Option Int → Nat
  | none => 0
  | some a => a.natAbs

/-- Python truthiness of the previous-places list
(`None` and `[]` are falsy). -/
def truthyList : Option (List String) → Bool
  | some (_ :: _) => true
  | _ => false

/-- `previous_count` as computed at the top of `_apply_agent_routing`:
place names extracted from the previous response when present, else 0. -/
def previousPlacesOf (previous_response : Option String) : Option (List String) :=
  match previous_response with
  | some r => extract_places_from_response r
  | none => none

/-- `len(previous_places_list) if previous_places_list else 0`. -/
def previousCountOf (previous_response : Option String) : Nat :=
  match previousPlacesOf previous_response with
  | some l => if l.isEmpty then 0 else l.length
  | none => 0

/-- Theme override from "city center" phrase detection
(chat_service.py lines 223-229), only reached on the modification branch. -/
def themeOverrideFor (message operation_type : String) : Option String :=
  let message_lower := toLowerPy message
  if hasSubStr message_lower "центр" || hasSubStr message_lower "center" then
    if operation_type = "replace_last" ∨ operation_type = "replace_all" then
      some "in city center (Marienplatz, Altstadt area)"
    else if operation_type = "add" then some "in city center"
    else none
  else none

/-- The tuple returned by `_apply_agent_routing`, plus the target count,
which the source stores by mutating `classification.count` in place. -/
structure RoutingOutcome where
  previous_places_list : Option (List String)
  operation_hint : Option String
  theme_override : Option String
  count : Nat
deriving DecidableEq, Repr

/-- The pure part of `_apply_agent_routing` (chat_service.py lines
168-231), after the `route_request` capability has returned `routing`:
discard context on a new request, otherwise adjust the target count by
operation type and compute the theme override. -/
def apply_routing_decision (message : String) (classification : QueryClassification)
    (previous_response : Option String) (routing : AgentRoutingDecision) :
    RoutingOutcome :=
  let previous_places_list := previousPlacesOf previous_response
  let previous_count := previousCountOf previous_response
  if routing.is_new_request || routing.operation_type == "new" then
    { previous_places_list := none, operation_hint := none, theme_override := none,
      count := classification.count }
  else
    let count :=
      if routing.operation_type == "add" && truthyAdj routing.count_adjustment then
        previous_count + adjAbs routing.count_adjustment
      else if routing.operation_type == "remove" && truthyAdj routing.count_adjustment then
        max 1 (previous_count - adjAbs routing.count_adjustment)
      else if routing.operation_type == "replace_last" ||
          routing.operation_type == "replace_all" then
        max classification.count previous_count
      else classification.count
    { previous_places_list := previous_places_list,
      operation_hint := some routing.operation_type,
      theme_override := themeOverrideFor message routing.operation_type,
      count := count }

/-- C4 (amended): for a modification decision, the resolved target count is
`previousCount + |delta|` for `add` with a non-null **nonzero** delta,
`max(1, previousCount − |delta|)` for `remove` with a non-null **nonzero**
delta (so `remove` never drives the count below 1), and
`max(classifiedCount, previousCount)` for `replace_last`/`replace_all`
(any delta); the source guards `add`/`remove` with Python truthiness, so a
delta of 0 leaves the classified count unchanged. -/
theorem C4_count_arithmetic (message : String) (classification : QueryClassification)
    (previous_response : Option String) (routing : AgentRoutingDecision)
    (hnew : routing.is_new_request = false) (hop : routing.operation_type ≠ "new") :
    let pc := previousCountOf previous_response
    let oc := (apply_routing_decision message classification previous_response routing).count
    (∀ a : Int, routing.operation_type = "add" → routing.count_adjustment = some a →
        a ≠ 0 → oc = pc + a.natAbs) ∧
      (∀ a : Int, routing.operation_type = "remove" → routing.count_adjustment = some a →
        a ≠ 0 → oc = max 1 (pc - a.natAbs) ∧ 1 ≤ oc) ∧
      ((routing.operation_type = "replace_last" ∨ routing.operation_type = "replace_all") →
        oc = max classification.count pc) := by
  intro pc oc
  refine ⟨?_, ?_, ?_⟩
  · intro a hadd hca ha
    show (apply_routing_decision message classification previous_response routing).count = _
    simp [apply_routing_decision, hnew, hadd, hca, truthyAdj, adjAbs, ha]
  · intro a hrem hca ha
    constructor
    · show (apply_routing_decision message classification previous_response routing).count = _
      simp [apply_routing_decision, hnew, hrem, hca, truthyAdj, adjAbs, ha]
    · show 1 ≤ (apply_routing_decision message classification previous_response routing).count
      simp [apply_routing_decision, hnew, hrem, hca, truthyAdj, adjAbs, ha]
  · intro hrep
    show (apply_routing_decision message classification previous_response routing).count = _
    rcases hrep with h | h <;>
      simp [apply_routing_decision, hnew, hop, h, truthyAdj, adjAbs]

/-- A previous response whose numbered list contains five places. -/
def prevResp5 : String :=
  "1. **Bar Alpha** - a\n2. **Bar Beta** - b\n3. **Bar Gamma** - c\n4. **Bar Delta** - d\n5. **Bar Epsilon** - e"

/-- A classified query asking for 3 places. -/
def cls3 : QueryClassification :=
  { is_route_request := true, location := "Munich", place_type := "bars",
    count := 3, theme := none, travel_mode := "walking" }

/-- An `add` modification whose count adjustment is non-null but zero. -/
def routingAdd0 : AgentRoutingDecision :=
  { is_new_request := false, operation_type := "add", use_previous_context := true,
    reasoning := "r", location_changed := false, place_type_changed := false,
    count_adjustment := some 0 }

/-- A `remove` modification with a given adjustment. -/
def routingRemove (a : Int) : AgentRoutingDecision :=
  { routingAdd0 with
    operation_type := "remove",
    count_adjustment := some a }

/-- An `add` modification with adjustment 2. -/
def routingAdd2 : AgentRoutingDecision :=
  { routingAdd0 with count_adjustment := some 2 }

/-- Witness for C4 at concrete inputs: with 5 prior places, `add` with
adjustment 2 resolves to 7, `remove` with adjustment −1 resolves to 4, and
`remove` with adjustment −7 resolves to 1 (never below 1). -/
theorem C4_count_arithmetic_witness :
    (apply_routing_decision "add two more" cls3 (some prevResp5) routingAdd2).count = 7 ∧
      (apply_routing_decision "remove the last one" cls3 (some prevResp5)
        (routingRemove (-1))).count = 4 ∧
      (apply_routing_decision "remove seven" cls3 (some prevResp5)
        (routingRemove (-7))).count = 1 := by
  refine ⟨?_, ?_, ?_⟩
  · have h := (C4_count_arithmetic "add two more" cls3 (some prevResp5)
      routingAdd2 rfl (by decide)).1 2 rfl rfl (by decide)
    rw [h]
    decide
  · have h := ((C4_count_arithmetic "remove the last one" cls3 (some prevResp5)
      (routingRemove (-1)) rfl (by decide)).2.1 (-1) rfl rfl (by decide)).1
    rw [h]
    decide
  · have h := ((C4_count_arithmetic "remove seven" cls3 (some prevResp5)
      (routingRemove (-7)) rfl (by decide)).2.1 (-7) rfl rfl (by decide)).1
    rw [h]
    decide

/-- Counterexample to C4 as stated: `add` with the **non-null** adjustment
`0` is skipped by the source's truthiness guard
(`if ... and routing.count_adjustment:`), so the resolved count stays at
the classified count 3 instead of `previousCount + |0| = 5`. -/
theorem C4_count_arithmetic_counterexample :
    previousCountOf (some prevResp5) = 5 ∧
      routingAdd0.count_adjustment = some 0 ∧
      (apply_routing_decision "add" cls3 (some prevResp5) routingAdd0).count = 3 ∧
      (3 : Nat) ≠ 5 + ((0 : Int).natAbs) := by
  refine ⟨by decide, rfl, by decide, by decide⟩

/-! ## Maps service (`maps_service.py`)

URLs are plain strings.  Coordinates are rendered with the canonical
rational rendering (`toString : ℚ → String`) where Python formats the
IEEE double — no verified property depends on the digits.  `pyQuote`
models `urllib.parse.quote` (UTF-8 bytes, default safe set `"/"`). -/

/-- A Python exception value: a failed external-capability call, or a
`TypeError` raised by the interpreter. -/
inductive PyErr where
  | capabilityFailure : String → PyErr
  | typeError : String → PyErr
deriving DecidableEq, Repr

/-- Uppercase hex digit. -/
def hexDigit (n : Nat) : Char :=
  if n < 10 then Char.ofNat ('0'.toNat + n) else Char.ofNat ('A'.toNat + n - 10)

/-- Percent-encode one UTF-8 byte (`urllib.parse.quote`, safe set
`A-Za-z0-9_.-~` plus `/`). -/
def quoteByte (b : UInt8) : String :=
  let n := b.toNat
  if (0x41 ≤ n ∧ n ≤ 0x5A) ∨ (0x61 ≤ n ∧ n ≤ 0x7A) ∨ (0x30 ≤ n ∧ n ≤ 0x39) ∨
      n = 0x5F ∨ n = 0x2E ∨ n = 0x2D ∨ n = 0x7E ∨ n = 0x2F then
    String.mk [Char.ofNat n]
  else String.mk ['%', hexDigit (n / 16), hexDigit (n % 16)]

/-- `urllib.parse.quote`. -/
def pyQuote (s : String) : String :=
  (s.toUTF8.toList.map quoteByte).foldl (· ++ ·) ""

/-- `f"{lat},{lng}"` for a coordinate pair. -/
def coordPair (p : EnrichedPlace) : String :=
  toString p.coordinates.lat ++ "," ++ toString p.coordinates.lng

/-- `MapsService.generate_place_link` (maps_service.py lines 29-48):
prefer the capability-provided canonical link (Python truthiness — the
empty string falls through), else a coordinate link. -/
def generate_place_link (place : EnrichedPlace) : String :=
  if place.google_maps_link ≠ "" then place.google_maps_link
  else
    "https://www.google.com/maps/place/" ++ pyQuote place.name ++ "/@" ++
      toString place.coordinates.lat ++ "," ++ toString place.coordinates.lng ++ ",15z"

/-- `MapsService.generate_embed_url` (maps_service.py lines 69-111).  Note
the signature: `(self, places)` — there is no `mode` parameter. -/
def generate_embed_url (api_key : Option String) (places : List EnrichedPlace) : String :=
  match api_key with
  | none => ""
  | some key =>
    match places with
    | [] => ""
    | [place] =>
      "https://www.google.com/maps/embed/v1/place?key=" ++ key ++ "&q=" ++
        pyQuote place.name ++ "&center=" ++ coordPair place ++ "&zoom=15"
    | origin :: p2 :: more =>
      let destination := (p2 :: more).getLast (List.cons_ne_nil _ _)
      let waypoints := ((p2 :: more).dropLast).map coordPair
      let waypoints_str := String.intercalate "|" waypoints
      let url := "https://www.google.com/maps/embed/v1/directions?key=" ++ key ++
        "&origin=" ++ coordPair origin ++ "&destination=" ++ coordPair destination ++
        "&mode=walking"
      if waypoints_str ≠ "" then url ++ "&waypoints=" ++ waypoints_str else url

/-- `MapsService.generate_full_route_link` (maps_service.py lines 113-147).
(Called on line 200 of the source, which is unreachable — see
`generate_map_data`.) -/
def generate_full_route_link (places : List EnrichedPlace) (travel_mode : String) : String :=
  match places with
  | [] => ""
  | [place] => generate_place_link place
  | origin :: p2 :: more =>
    let destination := (p2 :: more).getLast (List.cons_ne_nil _ _)
    let waypoints := ((p2 :: more).dropLast).map coordPair
    let url := "https://www.google.com/maps/dir/?api=1&origin=" ++ coordPair origin ++
      "&destination=" ++ coordPair destination ++ "&travelmode=" ++ travel_mode
    if waypoints ≠ [] then url ++ "&waypoints=" ++ String.intercalate "|" waypoints else url

/-- One `MapPoint` of the `points` comprehension of `generate_map_data`
(maps_service.py lines 173-184). -/
def mkMapPoint (place : EnrichedPlace) : MapPoint :=
  { name := place.name, googleMapsLink := generate_place_link place,
    address := some place.address, rating := place.rating,
    userRatingsTotal := place.user_ratings_total, photoUrl := place.photo_url,
    coordinates := some place.coordinates }

/-- The `segments` loop of `generate_map_data` (maps_service.py lines
186-196): one segment per consecutive pair (`for i in range(len-1)`,
modelled by zipping the list with its tail). -/
def mkSegments (api_key : Option String) (places : List EnrichedPlace) : List MapSegment :=
  (places.zip places.tail).map fun od =>
    { from_point := od.1.name, to_point := od.2.name,
      mapUrl := generate_embed_url api_key [od.1, od.2] }

/-- The segment construction satisfies the intended invariant
`segments.length = max(points.length − 1, 0)` (Nat subtraction). -/
theorem mkSegments_length (api_key : Option String) (places : List EnrichedPlace) :
    (mkSegments api_key places).length = places.length - 1 := by
  simp only [mkSegments, List.length_map, List.length_zip, List.length_tail]
  omega

/-- `MapsService.generate_map_data` (maps_service.py lines 149-214).  The
source computes `points` and `segments`, then executes
`full_route_embed = self.generate_embed_url(places, mode="directions")`
(line 199).  `generate_embed_url` accepts no keyword `mode`, so that call
raises `TypeError` for every input, and the `MapData` of lines 202-214 is
never constructed. -/
def generate_map_data (api_key : Option String) (places : List EnrichedPlace)
    (title description duration travel_mode : String) : Except PyErr MapData :=
  let _points : List MapPoint := places.map mkMapPoint
  let _segments : List MapSegment := mkSegments api_key places
  let _ := (title, description, duration, travel_mode)
  Except.error (PyErr.typeError
    "generate_embed_url() got an unexpected keyword argument \x27mode\x27")

/-- C2 (code bug): map assembly never returns an assembled `RouteMapData`
at all — for every input, `generate_map_data` raises `TypeError` at the
`generate_embed_url(places, mode="directions")` call (maps_service.py
line 199), so the claimed invariant about its output is unsatisfiable on
the code as written.  (The segment construction that precedes the crash
does satisfy the intended count invariant — see `mkSegments_length`.) -/
theorem C2_segment_invariant_bug (api_key : Option String) (places : List EnrichedPlace)
    (title description duration travel_mode : String) :
    generate_map_data api_key places title description duration travel_mode =
      Except.error (PyErr.typeError
        "generate_embed_url() got an unexpected keyword argument \x27mode\x27") := rfl

/-! ## Pipeline orchestrator (`ChatService`, chat_service.py)

The three LLM capabilities and the enrichment capability are an `Oracle`
of explicit results (`Except.error` = the Python call raised); every
capability invocation is recorded, with its arguments, in a `CallEvent`
trace returned alongside the result.  The distance function `d` stands
for the source's floating-point `calculate_distance`. -/

/-- The workspace payload of a chat response. -/
inductive Workspace where
  | empty : Workspace
  | map : MapData → Workspace
deriving DecidableEq, Repr

/-- The `{"response": ..., "workspace": ...}` dict returned by
`process_message`. -/
structure ChatResult where
  response : String
  workspace : Workspace
deriving DecidableEq, Repr

/-- The keyword arguments of an `OpenAIService.suggest_places` call
(openai_service.py lines 152-161). -/
structure SuggestArgs where
  location : String
  place_type : String
  count : Nat
  theme : Option String
  previous_places : Option (List String)
  modification_request : Option String
  operation_hint : Option String
  excluded_places : Option (List String)
deriving DecidableEq, Repr

/-- The external-capability environment of one turn. -/
structure Oracle where
  api_key : Option String
  classify : Except PyErr QueryClassification
  route : Except PyErr AgentRoutingDecision
  suggest : SuggestArgs → Except PyErr PlaceSuggestions
  enrich : List PlaceSuggestion → String → Except PyErr (List EnrichedPlace)

/-- One recorded capability invocation. -/
inductive CallEvent where
  | classifyCall (message : String) (previous_request previous_response : Option String)
  | routeCall (message : String) (previous_request previous_response : Option String)
      (previous_places_count : Nat)
  | suggestCall (args : SuggestArgs)
  | enrichCall (suggestions : List PlaceSuggestion) (location : String)
deriving DecidableEq, Repr

/-- `ChatService._fallback_response` (chat_service.py lines 474-476). -/
def fallback_response (message : String) : ChatResult :=
  { response := message, workspace := Workspace.empty }

/-- The static help message for non-route requests
(chat_service.py lines 319-322). -/
def helpMessage : String :=
  "I\x27ll help you find interesting places in the city! Try asking something like:\n\n• \x27Top 5 bars in Munich\x27\n• \x273 contemporary art museums in Berlin\x27\n• \x27Best parks in London for walking\x27\n\nWhat are you interested in?"

/-- The over-limit message (chat_service.py lines 329-331). -/
def overLimitMessage (c : QueryClassification) : String :=
  "Sorry, but our service currently supports up to 10 places per request for the best user experience.\n\nYou requested " ++
    toString c.count ++
    " places, which is quite a lot! 😅\n\nPlease try asking for 10 or fewer places. For example:\n• \x27Top 10 " ++
    c.place_type ++ " in " ++ c.location ++ "\x27\n• \x27Best 5 " ++ c.place_type ++ " in " ++
    c.location ++
    "\x27\n\nThis helps us create better routes and keep the map readable!"

/-- The generic error fallback text (chat_service.py line 162). -/
def errorFallbackMsg : String :=
  "Sorry, an error occurred while processing your request. Please try again."

/-- The no-suggestions fallback text (chat_service.py line 360). -/
def noSuggestionsMsg : String :=
  "Unfortunately, couldn\x27t find suitable places. Please try a different query."

/-- The no-verified-places fallback text (chat_service.py line 376). -/
def noLocationsMsg (c : QueryClassification) : String :=
  "Couldn\x27t find exact locations for \x27" ++ c.place_type ++ "\x27 in " ++ c.location ++
    ". Please try a different query."

/-- `ChatService._travel_mode_en` (chat_service.py lines 478-486). -/
def travel_mode_en (mode : String) : String :=
  if mode = "walking" then "walking"
  else if mode = "driving" then "by car"
  else if mode = "transit" then "by public transport"
  else if mode = "bicycling" then "by bicycle"
  else mode

/-- The numbered place list of the final response
(chat_service.py lines 401-406): `{i+1}. **{name}** - {description[:80]}...`. -/
def placesListText (enriched : List EnrichedPlace) : String :=
  String.intercalate "\n" (enriched.enum.map fun ip =>
    toString (ip.1 + 1) ++ ". **" ++ ip.2.name ++ "** - " ++
      String.mk (ip.2.description.data.take 80) ++ "...")

/-- The final response text (chat_service.py lines 408-416). -/
def response_text (enriched : List EnrichedPlace) (suggestions : PlaceSuggestions)
    (classification : QueryClassification) : String :=
  "Great choice! I\x27ve selected " ++ toString enriched.length ++
    " interesting places for you:\n\n" ++ placesListText enriched ++
    "\n\n📍 You\x27ll see all route points on the map on the right.\n⏱️ Estimated time: " ++
    suggestions.estimated_duration ++ "\n🚶 Travel mode: " ++
    travel_mode_en classification.travel_mode ++
    "\n\nClick on any point to open it in Google Maps!"

/-- `ChatService._apply_agent_routing` (chat_service.py lines 168-231):
extract the previous place list, invoke the TurnRouter capability
(`route_request` — called unconditionally, also with no prior context),
then apply the pure decision logic `apply_routing_decision`. -/
def apply_agent_routing (o : Oracle) (message : String)
    (classification : QueryClassification)
    (previous_request previous_response : Option String) :
    Except PyErr RoutingOutcome × List CallEvent :=
  let ev := CallEvent.routeCall message previous_request previous_response
    (previousCountOf previous_response)
  match o.route with
  | .error e => (.error e, [ev])
  | .ok routing =>
    (.ok (apply_routing_decision message classification previous_response routing), [ev])

/-- The arguments of the main `suggest_places` call
(chat_service.py lines 341-349). -/
def suggestArgsFor (classification : QueryClassification) (message : String)
    (outcome : RoutingOutcome) : SuggestArgs :=
  { location := classification.location, place_type := classification.place_type,
    count := classification.count,
    theme := match outcome.theme_override with
      | some t => some t
      | none => classification.theme,
    previous_places := outcome.previous_places_list,
    modification_request :=
      if truthyList outcome.previous_places_list then some message else none,
    operation_hint := outcome.operation_hint,
    excluded_places := none }

/-- The arguments of the retry `suggest_places` call
(chat_service.py lines 262-268): the shortfall count and the names of all
first-pass candidates as the exclusion list. -/
def retrySuggestArgs (suggestions : PlaceSuggestions)
    (classification : QueryClassification) (enriched_count : Nat) : SuggestArgs :=
  { location := classification.location, place_type := classification.place_type,
    count := classification.count - enriched_count, theme := classification.theme,
    previous_places := none, modification_request := none, operation_hint := none,
    excluded_places := some (suggestions.places.map PlaceSuggestion.name) }

/-- `ChatService._enrich_with_retry` (chat_service.py lines 233-278):
enrich all candidates; when fewer than the target count verify, perform
exactly one retry round (suggest the shortfall with the tried names
excluded, enrich, append); accept the result either way. -/
def enrich_with_retry (o : Oracle) (suggestions : PlaceSuggestions)
    (classification : QueryClassification) :
    Except PyErr (List EnrichedPlace) × List CallEvent :=
  let ev1 := CallEvent.enrichCall suggestions.places classification.location
  match o.enrich suggestions.places classification.location with
  | .error e => (.error e, [ev1])
  | .ok enriched_places =>
    if enriched_places.length < classification.count then
      let args := retrySuggestArgs suggestions classification enriched_places.length
      let ev2 := CallEvent.suggestCall args
      match o.suggest args with
      | .error e => (.error e, [ev1, ev2])
      | .ok retry_suggestions =>
        let ev3 := CallEvent.enrichCall retry_suggestions.places classification.location
        match o.enrich retry_suggestions.places classification.location with
        | .error e => (.error e, [ev1, ev2, ev3])
        | .ok retry_enriched => (.ok (enriched_places ++ retry_enriched), [ev1, ev2, ev3])
    else (.ok enriched_places, [ev1])

/-- The pipeline from the suggestion step on (chat_service.py lines
341-428), given the routing outcome; `classification.count` has already
been mutated to `outcome.count` by the source, modelled by
`classification2`.  The trace is the suffix after the route event. -/
def pipeline_post_routing (d : EnrichedPlace → EnrichedPlace → ℚ) (o : Oracle)
    (message : String) (classification : QueryClassification) (outcome : RoutingOutcome) :
    Except PyErr ChatResult × List CallEvent :=
  let classification2 := { classification with count := outcome.count }
  let args := suggestArgsFor classification2 message outcome
  let ev1 := CallEvent.suggestCall args
  match o.suggest args with
  | .error e => (.error e, [ev1])
  | .ok suggestions =>
    if suggestions.places.isEmpty then
      (.ok (fallback_response noSuggestionsMsg), [ev1])
    else
      match enrich_with_retry o suggestions classification2 with
      | (.error e, evs2) => (.error e, ev1 :: evs2)
      | (.ok enriched0, evs2) =>
        let enriched :=
          if 2 < enriched0.length then optimize_route_greedy d enriched0 else enriched0
        if enriched.isEmpty then
          (.ok (fallback_response (noLocationsMsg classification2)), ev1 :: evs2)
        else
          let title := toString enriched.length ++ " " ++ classification2.place_type ++
            " in " ++ classification2.location
          match generate_map_data o.api_key enriched title suggestions.route_description
              suggestions.estimated_duration classification2.travel_mode with
          | .error e => (.error e, ev1 :: evs2)
          | .ok map_data =>
            (.ok { response := response_text enriched suggestions classification2,
                   workspace := Workspace.map map_data }, ev1 :: evs2)

/-- The pipeline from the routing step on (chat_service.py lines 334-428),
reached only for an in-limit route request; the trace excludes the
classify event, which `process_with_ai` prepends. -/
def pipeline_core (d : EnrichedPlace → EnrichedPlace → ℚ) (o : Oracle) (message : String)
    (previous_request previous_response : Option String)
    (classification : QueryClassification) : Except PyErr ChatResult × List CallEvent :=
  let routed := apply_agent_routing o message classification previous_request previous_response
  match routed.1 with
  | .error e => (.error e, routed.2)
  | .ok outcome =>
    let rest := pipeline_post_routing d o message classification outcome
    (rest.1, routed.2 ++ rest.2)

/-- `ChatService._process_with_ai` (chat_service.py lines 280-428):
classify, emit the help message for non-route requests, enforce the
10-place cap, then run the rest of the pipeline. -/
def process_with_ai (d : EnrichedPlace → EnrichedPlace → ℚ) (o : Oracle) (message : String)
    (previous_request previous_response : Option String) :
    Except PyErr ChatResult × List CallEvent :=
  let ev0 := CallEvent.classifyCall message previous_request previous_response
  match o.classify with
  | .error e => (.error e, [ev0])
  | .ok classification =>
    if classification.is_route_request = false then
      (.ok { response := helpMessage, workspace := Workspace.empty }, [ev0])
    else if 10 < classification.count then
      (.ok { response := overLimitMessage classification, workspace := Workspace.empty }, [ev0])
    else
      let r := pipeline_core d o message previous_request previous_response classification
      (r.1, ev0 :: r.2)

/-- `ChatService.process_message` (chat_service.py lines 128-166), the
AI-enabled branch: run `_process_with_ai` and convert any raised
exception into the generic apologetic fallback with an empty workspace.
(When the capabilities are unconfigured at startup, the source serves
mock responses instead; that mode is outside the claims.) -/
def process_message (d : EnrichedPlace → EnrichedPlace → ℚ) (o : Oracle) (message : String)
    (previous_request previous_response : Option String) : ChatResult :=
  match (process_with_ai d o message previous_request previous_response).1 with
  | .ok r => r
  | .error _ => fallback_response errorFallbackMsg

/-! ## Pipeline theorems (C1, C3, C5, C6, C7) -/

theorem apply_agent_routing_trace (o : Oracle) (m : String)
    (c : QueryClassification) (pr pp : Option String) :
    (apply_agent_routing o m c pr pp).2 =
      [CallEvent.routeCall m pr pp (previousCountOf pp)] := by
  unfold apply_agent_routing
  cases h : o.route <;> simp [h]

theorem pipeline_core_trace (d : EnrichedPlace → EnrichedPlace → ℚ) (o : Oracle)
    (m : String) (pr pp : Option String) (c : QueryClassification) :
    ∃ rest, (pipeline_core d o m pr pp c).2 =
      CallEvent.routeCall m pr pp (previousCountOf pp) :: rest := by
  unfold pipeline_core
  cases h : (apply_agent_routing o m c pr pp).1 with
  | error e => exact ⟨[], by simp [h, apply_agent_routing_trace]⟩
  | ok outcome =>
    exact ⟨(pipeline_post_routing d o m c outcome).2,
      by simp [h, apply_agent_routing_trace]⟩

/-- C7 (amended): the TurnRouter capability is invoked on **every** turn
that passes classification as an in-limit route request — also when no
prior turn exists (then with `previous_places_count = 0`); when
`previousResponse` is present, place names are extracted from it to
compute `previous_places_count` before the call.  The trace of such a
turn always begins with the classify event followed by the route event. -/
theorem C7_router_always_called (d : EnrichedPlace → EnrichedPlace → ℚ) (o : Oracle)
    (m : String) (pr pp : Option String) (c : QueryClassification)
    (hc : o.classify = .ok c) (hroute : c.is_route_request = true)
    (hcount : c.count ≤ 10) :
    ∃ rest, (process_with_ai d o m pr pp).2 =
      CallEvent.classifyCall m pr pp ::
        CallEvent.routeCall m pr pp (previousCountOf pp) :: rest := by
  obtain ⟨rest, hr⟩ := pipeline_core_trace d o m pr pp c
  refine ⟨rest, ?_⟩
  unfold process_with_ai
  rw [hc]
  simp [hroute, Nat.not_lt.mpr hcount, hr]

/-- C3: any exception raised by any pipeline step is caught at the
orchestrator boundary and turned into the apologetic fallback text with an
empty workspace; the raw failure value `e` is never propagated. -/
theorem C3_error_fallback (d : EnrichedPlace → EnrichedPlace → ℚ) (o : Oracle)
    (m : String) (pr pp : Option String) (e : PyErr)
    (h : (process_with_ai d o m pr pp).1 = .error e) :
    process_message d o m pr pp =
      { response := errorFallbackMsg, workspace := Workspace.empty } := by
  unfold process_message
  rw [h]
  rfl

/-- C5: when classification yields an in-scope route request whose count
exceeds 10, the pipeline returns the over-limit message with an empty
workspace and the trace contains only the classify event — the routing,
suggestion and enrichment capabilities are never invoked. -/
theorem C5_count_cap (d : EnrichedPlace → EnrichedPlace → ℚ) (o : Oracle)
    (m : String) (pr pp : Option String) (c : QueryClassification)
    (hc : o.classify = .ok c) (hroute : c.is_route_request = true)
    (hcount : 10 < c.count) :
    process_with_ai d o m pr pp =
      (.ok { response := overLimitMessage c, workspace := Workspace.empty },
       [CallEvent.classifyCall m pr pp]) := by
  unfold process_with_ai
  rw [hc]
  simp [hroute, hcount]

/-- C6: when the first enrichment pass verifies fewer places than the
target count, exactly one retry round happens — a suggestion call asking
for exactly the shortfall `count − enriched.length` with the names of all
first-pass candidates as the exclusion list, followed by one enrichment
call — and its results are appended; the combined list is returned as is
(a second shortfall triggers nothing further, as the trace shows). -/
theorem C6_retry_bound (o : Oracle) (suggestions : PlaceSuggestions)
    (classification : QueryClassification) (e1 : List EnrichedPlace)
    (s2 : PlaceSuggestions) (e2 : List EnrichedPlace)
    (h1 : o.enrich suggestions.places classification.location = .ok e1)
    (hlt : e1.length < classification.count)
    (h2 : o.suggest (retrySuggestArgs suggestions classification e1.length) = .ok s2)
    (h3 : o.enrich s2.places classification.location = .ok e2) :
    enrich_with_retry o suggestions classification =
      (.ok (e1 ++ e2),
       [CallEvent.enrichCall suggestions.places classification.location,
        CallEvent.suggestCall (retrySuggestArgs suggestions classification e1.length),
        CallEvent.enrichCall s2.places classification.location]) := by
  unfold enrich_with_retry
  rw [h1]
  simp [hlt, h2, h3]

/-! ### Concrete fixtures for the pipeline witnesses and counterexamples -/

/-- Scenario A classification: "Top 5 bars in Munich". -/
def clsA : QueryClassification :=
  { is_route_request := true, location := "Munich", place_type := "bars",
    count := 5, theme := none, travel_mode := "walking" }

/-- A classification asking for 15 places. -/
def cls15 : QueryClassification := { clsA with count := 15 }

/-- A fresh-request routing decision. -/
def routingNew : AgentRoutingDecision :=
  { is_new_request := true, operation_type := "new", use_previous_context := false,
    reasoning := "fresh request", location_changed := true, place_type_changed := true,
    count_adjustment := none }

/-- A named candidate suggestion. -/
def sg (n : String) : PlaceSuggestion :=
  { name := n, short_description := "desc", why_recommended := "why" }

/-- Five suggested Munich bars. -/
def suggsA : PlaceSuggestions :=
  { places := [sg "B1", sg "B2", sg "B3", sg "B4", sg "B5"],
    route_description := "a bar walk", estimated_duration := "3 hours" }

/-- Five successfully enriched places. -/
def enrichedA : List EnrichedPlace :=
  [wPlace "B1" 1 1, wPlace "B2" 2 2, wPlace "B3" 3 3, wPlace "B4" 4 4, wPlace "B5" 5 5]

/-- An oracle whose every capability raises. -/
def oErr : Oracle :=
  { api_key := none,
    classify := .error (PyErr.capabilityFailure "boom"),
    route := .error (PyErr.capabilityFailure "boom"),
    suggest := fun _ => .error (PyErr.capabilityFailure "boom"),
    enrich := fun _ _ => .error (PyErr.capabilityFailure "boom") }

/-- Scenario A oracle: classification as in the claim, fresh routing, five
candidates, all five enriching successfully. -/
def oA : Oracle :=
  { oErr with
    api_key := some "KEY",
    classify := .ok clsA,
    route := .ok routingNew,
    suggest := fun _ => .ok suggsA,
    enrich := fun _ _ => .ok enrichedA }

/-- An oracle classifying a 15-place request (nothing else is reached). -/
def oC5 : Oracle := { oErr with classify := .ok cls15 }

/-- An oracle that classifies scenario A but whose routing capability
raises (the call itself is still recorded). -/
def oC7 : Oracle := { oErr with classify := .ok clsA }

/-- C1 (code bug): in scenario A — "Top 5 bars in Munich", no prior
context, classification `(true, "Munich", "bars", 5)`, all five
candidates enriched — the pipeline does **not** return a "map" workspace:
`generate_map_data` raises `TypeError` (its call to `generate_embed_url`
passes the nonexistent keyword `mode`), the orchestrator catches it, and
the turn ends in the apologetic fallback with an **empty** workspace. -/
theorem C1_scenario_a_bug :
    (process_with_ai dSq oA "Top 5 bars in Munich" none none).1 =
        .error (PyErr.typeError
          "generate_embed_url() got an unexpected keyword argument \x27mode\x27") ∧
      process_message dSq oA "Top 5 bars in Munich" none none =
        { response := errorFallbackMsg, workspace := Workspace.empty } := by
  exact ⟨rfl, rfl⟩

/-- Witness for C3: with a classification capability that raises, the
hypothesis of `C3_error_fallback` holds and the result is the fallback. -/
theorem C3_error_fallback_witness :
    (process_with_ai dSq oErr "hello" none none).1 =
        .error (PyErr.capabilityFailure "boom") ∧
      process_message dSq oErr "hello" none none =
        { response := errorFallbackMsg, workspace := Workspace.empty } :=
  ⟨rfl, C3_error_fallback dSq oErr "hello" none none _ rfl⟩

/-- Witness for C5 at `count = 15`. -/
theorem C5_count_cap_witness :
    process_with_ai dSq oC5 "Top 15 bars in Munich" none none =
      (.ok { response := overLimitMessage cls15, workspace := Workspace.empty },
       [CallEvent.classifyCall "Top 15 bars in Munich" none none]) :=
  C5_count_cap dSq oC5 "Top 15 bars in Munich" none none cls15 rfl rfl (by decide)

/-- Witness for C7's amended statement at a concrete turn with a prior
response containing five places. -/
theorem C7_router_always_called_witness :
    ∃ rest, (process_with_ai dSq oA "add two more bars" (some "Top 5 bars in Munich")
        (some prevResp5)).2 =
      CallEvent.classifyCall "add two more bars" (some "Top 5 bars in Munich")
          (some prevResp5) ::
        CallEvent.routeCall "add two more bars" (some "Top 5 bars in Munich")
          (some prevResp5) (previousCountOf (some prevResp5)) :: rest :=
  C7_router_always_called dSq oA "add two more bars" (some "Top 5 bars in Munich")
    (some prevResp5) clsA rfl rfl (by decide)

/-- Counterexample to C7 as stated: a turn with **no** prior context
(`previousRequest = previousResponse = none`) whose full trace is the
classify event followed by a TurnRouter invocation — the routing
capability is called (with `previous_places_count = 0`) instead of the
pipeline proceeding directly from classification to suggestion. -/
theorem C7_router_called_without_context_counterexample :
    (process_with_ai dSq oC7 "Top 5 bars in Munich" none none).2 =
      [CallEvent.classifyCall "Top 5 bars in Munich" none none,
       CallEvent.routeCall "Top 5 bars in Munich" none none 0] := by
  rfl

/-! ### Witness fixtures for C6 -/

/-- A classification asking for three places. -/
def clsC6 : QueryClassification := { clsA with count := 3 }

/-- First-pass candidates for the C6 witness. -/
def suggsC6 : PlaceSuggestions :=
  { places := [sg "A", sg "B", sg "C"], route_description := "walk",
    estimated_duration := "2 hours" }

/-- Retry-round candidates for the C6 witness. -/
def suggsC6retry : PlaceSuggestions :=
  { places := [sg "D"], route_description := "walk", estimated_duration := "1 hour" }

/-- An oracle enriching only 2 of 3 first-pass candidates, then serving
the retry round. -/
def oC6 : Oracle :=
  { oErr with
    classify := .ok clsC6,
    route := .ok routingNew,
    suggest := fun args =>
      if args = retrySuggestArgs suggsC6 clsC6 2 then .ok suggsC6retry
      else .error (PyErr.capabilityFailure "unexpected arguments"),
    enrich := fun suggestions _ =>
      if suggestions = suggsC6.places then .ok [wPlace "A" 1 1, wPlace "B" 2 2]
      else if suggestions = suggsC6retry.places then .ok [wPlace "D" 4 4]
      else .error (PyErr.capabilityFailure "unexpected arguments") }

/-- Witness for C6: 2 of 3 enrich on the first pass; the retry asks for
exactly 1 candidate excluding ["A", "B", "C"], enriches it, and the
result is the appended list. -/
theorem C6_retry_bound_witness :
    enrich_with_retry oC6 suggsC6 clsC6 =
      (.ok [wPlace "A" 1 1, wPlace "B" 2 2, wPlace "D" 4 4],
       [CallEvent.enrichCall suggsC6.places clsC6.location,
        CallEvent.suggestCall (retrySuggestArgs suggsC6 clsC6 2),
        CallEvent.enrichCall suggsC6retry.places clsC6.location]) := by
  have h := C6_retry_bound oC6 suggsC6 clsC6 [wPlace "A" 1 1, wPlace "B" 2 2]
    suggsC6retry [wPlace "D" 4 4] rfl (by decide) rfl rfl
  exact h

/-! ## Place enrichment (`PlacesService.enrich_place`,
places_service.py lines 197-272)

The Google Places text-search response is a JSON dict; the fields the
code reads (with their `.get` defaults) are modelled by `PlaceData`, and
the search capability by a function returning `none` when
`search_place` found nothing (or itself failed — it catches its own
exceptions and returns `None`). -/

/-- One entry of the `photos` array (only `name` is read). -/
structure PhotoData where
  name : Option String
deriving DecidableEq, Repr

/-- The fields of a place-search result read by `enrich_place`, each
`none` when the key is absent (`location` absent means both coordinates
absent). -/
structure PlaceData where
  id : Option String
  displayNameText : Option String
  formattedAddress : Option String
  latitude : Option ℚ
  longitude : Option ℚ
  rating : Option ℚ
  userRatingCount : Option Nat
  googleMapsUri : Option String
  photos : List PhotoData
deriving DecidableEq, Repr

/-- `PlacesService.enrich_place` (places_service.py lines 197-272): search
for `"{name}, {location}"`; reject when nothing is found or the address
fails the city check; otherwise build the `EnrichedPlace`, defaulting
absent coordinates to `(0.0, 0.0)` (`location_data.get("latitude", 0.0)`). -/
def enrich_place (api_key : String) (search : String → String → Option PlaceData)
    (suggestion : PlaceSuggestion) (location : String) : Option EnrichedPlace :=
  match search suggestion.name location with
  | none => none
  | some place_data =>
    let place_id := place_data.id.getD ""
    let display_name := place_data.displayNameText.getD suggestion.name
    let address := place_data.formattedAddress.getD "Address not available"
    if is_city_in_address location address = false then none
    else
      let coordinates : PlaceCoordinates :=
        { lat := place_data.latitude.getD 0, lng := place_data.longitude.getD 0 }
      let google_maps_link := place_data.googleMapsUri.getD ""
      let photo_url : Option String :=
        match place_data.photos with
        | [] => none
        | ph :: _ =>
          match ph.name.getD "" with
          | "" => none
          | pn => some ("https://places.googleapis.com/v1/" ++ pn ++ "/media?key=" ++
              api_key ++ "&maxHeightPx=400")
      some { name := display_name, description := suggestion.short_description,
             address := address, coordinates := coordinates, place_id := place_id,
             rating := place_data.rating, user_ratings_total := place_data.userRatingCount,
             google_maps_link := google_maps_link, photo_url := photo_url }

/-- C10: a search result that passes city verification but carries no
location data is **not** rejected — enrichment returns an
`EnrichedPlace` whose coordinates default to `(0, 0)`, so the unlocated
venue surfaces in the result set (and hence in distance computations)
at coordinates `(0, 0)`. -/
theorem C10_missing_location_defaults (api_key : String)
    (search : String → String → Option PlaceData) (suggestion : PlaceSuggestion)
    (location : String) (pd : PlaceData)
    (hs : search suggestion.name location = some pd)
    (hlat : pd.latitude = none) (hlng : pd.longitude = none)
    (hcity : is_city_in_address location (pd.formattedAddress.getD "Address not available")
      = true) :
    ∃ e : EnrichedPlace, enrich_place api_key search suggestion location = some e ∧
      e.coordinates = { lat := 0, lng := 0 } := by
  refine ⟨{ name := pd.displayNameText.getD suggestion.name,
            description := suggestion.short_description,
            address := pd.formattedAddress.getD "Address not available",
            coordinates := { lat := 0, lng := 0 },
            place_id := pd.id.getD "",
            rating := pd.rating, user_ratings_total := pd.userRatingCount,
            google_maps_link := pd.googleMapsUri.getD "",
            photo_url :=
              match pd.photos with
              | [] => none
              | ph :: _ =>
                match ph.name.getD "" with
                | "" => none
                | pn => some ("https://places.googleapis.com/v1/" ++ pn ++ "/media?key=" ++
                    api_key ++ "&maxHeightPx=400") }, ?_, rfl⟩
  unfold enrich_place
  rw [hs]
  simp [hcity, hlat, hlng]

/-- A search result verified for Munich but with no `location` field. -/
def pdNoLoc : PlaceData :=
  { id := some "pid", displayNameText := some "Mystery Bar",
    formattedAddress := some "Somewhere 1, Munich, Germany",
    latitude := none, longitude := none, rating := some 4,
    userRatingCount := some 10, googleMapsUri := some "https://maps.google.com/?cid=1",
    photos := [] }

/-- A search capability serving `pdNoLoc` for the witness query. -/
def searchW : String → String → Option PlaceData := fun n l =>
  if n = "Mystery Bar" ∧ l = "Munich" then some pdNoLoc else none

/-- Witness for C10: the concrete unlocated-but-verified result enriches
to a place at coordinates `(0, 0)`. -/
theorem C10_missing_location_defaults_witness :
    ∃ e : EnrichedPlace,
      enrich_place "KEY" searchW (sg "Mystery Bar") "Munich" = some e ∧
        e.coordinates = { lat := 0, lng := 0 } :=
  C10_missing_location_defaults "KEY" searchW (sg "Mystery Bar") "Munich" pdNoLoc
    (by decide) rfl rfl (by decide)

end CityHelper
